import Mathlib

/-!
Verification of the CUDA circuit HAL adapter for the rv32im constraint
check (src/risc0/circuit/rv32im/src/prove/hal/cuda.rs) against its
specification.  Pure computations of the source file are embedded
directly; the accelerator dispatch is embedded as an explicit ordered
trace of effects.  Parts of the repository that the excerpt references
but that are outside it (the base-field constants and root-of-unity
table of risc0_core, the kernel bodies, the sequential reference
backend, the layout index constants of the crate root) are modelled
from the specification and marked as such in their doc comments.
-/

/-- Modelled from the spec: the base prime field modulus (BabyBear,
p = 15 * 2 ^ 27 + 1, a single machine word); risc0_core is outside the
excerpt. -/
def P : Nat := 15 * 2 ^ 27 + 1

/-- Modelled from the spec: pow on the base field for a non-negative
exponent; extensionally x ^ n reduced mod p. -/
def fpow (x n : Nat) : Nat := x ^ n % P

/-- Modelled from the spec: the forward root-of-unity table is built
for subgroup orders 2 ^ k with k at most 27 (the two-adicity of
p - 1). -/
def maxRouPo2 : Nat := 27

/-- Modelled from the spec: entry k of the forward root-of-unity table
is a generator of the unique multiplicative subgroup of order 2 ^ k;
31 generates the full multiplicative group of the base field, whose
order is 15 * 2 ^ 27. -/
def rouFwd (k : Nat) : Nat := fpow 31 (15 * 2 ^ (maxRouPo2 - k))

/-- The error taxonomy of the spec (section 7). -/
inductive EvalError where
  | invalidLayout
  | domainTooLarge
  | divisionByZero
  | dispatchFailure (diag : Nat)
  deriving DecidableEq

/-- Modelled from the spec: root-of-unity lookup fails with
DomainTooLarge when the exponent exceeds the built range of the
table. -/
def rootOfUnity (k : Nat) : Except EvalError Nat :=
  if k ≤ maxRouPo2 then .ok (rouFwd k) else .error .domainTooLarge

/-- Modelled from the spec: the fixed inverse-rate blowup factor R = 4
(risc0_zkp INV_RATE is outside the excerpt). -/
def INV_RATE : Nat := 4

def log2CeilAux : Nat → Nat → Nat
  | 0, _ => 0
  | fuel + 1, n => if n ≤ 1 then 0 else log2CeilAux fuel ((n + 1) / 2) + 1

/-- Modelled from the spec: log2_ceil n is the least k with
n ≤ 2 ^ k (risc0_zkp log2_ceil is outside the excerpt). -/
def log2Ceil (n : Nat) : Nat := log2CeilAux n n

/-- EXP_PO2 of the source, line 84: log2_ceil of the inverse rate. -/
def EXP_PO2 : Nat := log2Ceil INV_RATE

/-- Modelled from the spec: the defining-polynomial constant of the
degree-4 extension (coefficient -11, stored reduced). -/
def NBETA : Nat := P - 11

/-- An element of the degree-4 extension field, as its ordered tuple of
base-field coefficients. -/
structure ExtElem where
  c0 : Nat
  c1 : Nat
  c2 : Nat
  c3 : Nat
  deriving DecidableEq

/-- The multiplicative identity of the extension field. -/
def eone : ExtElem := ⟨1, 0, 0, 0⟩

/-- Modelled from the spec: extension-field multiplication lifts the
base-field operations coefficient-wise with the fixed reduction rule of
the defining polynomial (x ^ 4 maps to -11). -/
def emul (a b : ExtElem) : ExtElem :=
  ⟨(a.c0 * b.c0 + NBETA * (a.c1 * b.c3 + a.c2 * b.c2 + a.c3 * b.c1)) % P,
   (a.c0 * b.c1 + a.c1 * b.c0 + NBETA * (a.c2 * b.c3 + a.c3 * b.c2)) % P,
   (a.c0 * b.c2 + a.c1 * b.c1 + a.c2 * b.c0 + NBETA * (a.c3 * b.c3)) % P,
   (a.c0 * b.c3 + a.c1 * b.c2 + a.c2 * b.c1 + a.c3 * b.c0) % P⟩

/-- All four coefficients are reduced below the modulus. -/
def ExtElem.reduced (x : ExtElem) : Prop :=
  x.c0 < P ∧ x.c1 < P ∧ x.c2 < P ∧ x.c3 < P

instance (x : ExtElem) : Decidable x.reduced := by
  unfold ExtElem.reduced
  infer_instance

/-- Modelled from the spec: pow on extension elements is repeated
squaring.  The recursion is fuel-indexed; fuel n always suffices since
the exponent at least halves at every step. -/
def epowAux : Nat → ExtElem → Nat → ExtElem
  | 0, _, _ => eone
  | fuel + 1, x, n =>
    if n = 0 then eone
    else if n % 2 = 1 then emul x (epowAux fuel (emul x x) (n / 2))
    else epowAux fuel (emul x x) (n / 2)

def epow (x : ExtElem) (n : Nat) : ExtElem := epowAux n x n

/-- Modelled from the spec: map_pow derives poly_mix ^ e for every
entry e of the mix-power schedule (risc0_core map_pow is outside the
excerpt). -/
def mapPow (x : ExtElem) (schedule : List Nat) : List ExtElem :=
  schedule.map (epow x)

/-- The as_u32_slice view of a vector of extension elements: the flat
list of their coefficients in order (source, lines 93 to 96). -/
def extToU32s (l : List ExtElem) : List Nat :=
  l.foldr (fun x acc => x.c0 :: x.c1 :: x.c2 :: x.c3 :: acc) []

/-- Modelled from the spec: the register group layout orders the group
buffers [ctrl, data, accum] (section 6); the index constants live in
the crate root, outside the excerpt. -/
def REGISTER_GROUP_CTRL : Nat := 0

def REGISTER_GROUP_DATA : Nat := 1

def REGISTER_GROUP_ACCUM : Nat := 2

/-- Modelled from the spec: the globals are ordered [mix, out]. -/
def GLOBAL_MIX : Nat := 0

def GLOBAL_OUT : Nat := 1

/-- A device-resident buffer: an identifying device pointer plus its
element contents.  The logical size is the length of the contents. -/
structure CudaBuffer where
  id : Nat
  data : List Nat
  deriving DecidableEq

def CudaBuffer.size (b : CudaBuffer) : Nat := b.data.length

/-- The names appearing in the dispatch sequence of the source; an
enumeration stands in for the string literals. -/
inductive Tag where
  | rouTag
  | po2Tag
  | sizeTag
  | polyMixTag
  | evalCheckEntry
  deriving DecidableEq

/-- One positional argument of a kernel dispatch: the device pointer of
an input buffer, or the device pointer of a freshly uploaded scalar
(copy_from_elem / copy_from_u32 allocate a one-element device buffer
whose pointer is passed). -/
inductive KernelArg where
  | ptr (id : Nat)
  | scalarPtr (t : Tag) (vals : List Nat)
  deriving DecidableEq

/-- One observable accelerator action of the adapter. -/
inductive Effect where
  | moduleLoad
  | copyFromElem (t : Tag) (vals : List Nat)
  | copyFromU32 (t : Tag) (vals : List Nat)
  | copyGlobal (t : Tag) (vals : List Nat)
  | streamCreate
  | launch (entry : Tag) (grid : Nat) (blockSize : Nat) (args : List KernelArg)
  | synchronize
  deriving DecidableEq

/-- Modelled from the spec: the execution-context interface consumed by
the accelerated backend; each operation either succeeds or fails with
an underlying substrate diagnostic. -/
structure Substrate where
  createQueue : Except Nat Unit
  dispatch : Except Nat Unit
  sync : Except Nat Unit

/-- Modelled from the spec: the fixed deterministic tiling rule of the
generic HAL (risc0_zkp compute_simple_params is outside the excerpt):
blocks of 256 threads, enough blocks to cover the total work. -/
def computeSimpleParams (count : Nat) : Nat × Nat :=
  ((count + 255) / 256, 256)

/-- Shallow embedding of CudaCircuitHal::eval_check (source lines 56 to
124).  It returns the ordered trace of accelerator effects performed
together with the outcome.  Rust panics (out-of-range slice indexing
while destructuring the layout, unwrap of a failed substrate call) are
modelled as the corresponding errors of the spec taxonomy.  The
mix-power schedule is the compile-time constant POLY_MIX_POWERS of the
crate info module, outside the excerpt; it is kept as the parameter
schedule. -/
def eval_check (sub : Substrate) (schedule : List Nat) (check : CudaBuffer)
    (groups : List CudaBuffer) (globals : List CudaBuffer)
    (poly_mix : ExtElem) (po2 : Nat) (steps : Nat) :
    List Effect × Except EvalError Unit :=
  match groups[REGISTER_GROUP_CTRL]? with
  | none => ([], .error .invalidLayout)
  | some ctrl =>
  match groups[REGISTER_GROUP_DATA]? with
  | none => ([], .error .invalidLayout)
  | some data =>
  match groups[REGISTER_GROUP_ACCUM]? with
  | none => ([], .error .invalidLayout)
  | some accum =>
  match globals[GLOBAL_MIX]? with
  | none => ([], .error .invalidLayout)
  | some mix =>
  match globals[GLOBAL_OUT]? with
  | none => ([], .error .invalidLayout)
  | some out =>
  match rootOfUnity (po2 + EXP_PO2) with
  | .error e => ([], .error e)
  | .ok rou =>
    let domain := steps * INV_RATE
    let uploads :=
      [Effect.copyFromElem .rouTag [rou],
       Effect.copyFromU32 .po2Tag [po2 % 2 ^ 32],
       Effect.copyFromU32 .sizeTag [domain % 2 ^ 32],
       Effect.copyGlobal .polyMixTag (extToU32s (mapPow poly_mix schedule))]
    match sub.createQueue with
    | .error d => (uploads ++ [Effect.streamCreate], .error (.dispatchFailure d))
    | .ok _ =>
      let params := computeSimpleParams domain
      let args :=
        [KernelArg.ptr check.id, KernelArg.ptr ctrl.id, KernelArg.ptr data.id,
         KernelArg.ptr accum.id, KernelArg.ptr mix.id, KernelArg.ptr out.id,
         KernelArg.scalarPtr .rouTag [rou],
         KernelArg.scalarPtr .po2Tag [po2 % 2 ^ 32],
         KernelArg.scalarPtr .sizeTag [domain % 2 ^ 32]]
      match sub.dispatch with
      | .error d =>
        (uploads ++ [Effect.streamCreate,
                     Effect.launch .evalCheckEntry params.1 params.2 args],
         .error (.dispatchFailure d))
      | .ok _ =>
        match sub.sync with
        | .error d =>
          (uploads ++ [Effect.streamCreate,
                       Effect.launch .evalCheckEntry params.1 params.2 args,
                       Effect.synchronize],
           .error (.dispatchFailure d))
        | .ok _ =>
          (uploads ++ [Effect.streamCreate,
                       Effect.launch .evalCheckEntry params.1 params.2 args,
                       Effect.synchronize],
           .ok ())

def isLaunch : Effect → Bool
  | .launch _ _ _ _ => true
  | _ => false

/-- The dispatches contained in a trace. -/
def launches (t : List Effect) : List Effect := t.filter isLaunch

/-- Modelled from the spec: the per-point constraint evaluation is an
abstract pure function of the point index (its column wiring is outside
the excerpt); filling a check buffer is folding the single-point update
over a completion order. -/
def writeAll (evalPoint : Nat → Nat) (order : List Nat) (buf : List Nat) :
    List Nat :=
  order.foldl (fun b i => b.set i (evalPoint i)) buf

/-- Modelled from the spec: the sequential reference backend iterates
the domain points one at a time, in order, on the calling thread. -/
def cpuEvalCheck (evalPoint : Nat → Nat) (domain : Nat) (buf : List Nat) :
    List Nat :=
  writeAll evalPoint (List.range domain) buf

/-- Modelled from the spec: the accelerated backend dispatches the same
single-point update to every domain index; the device completion order
is an arbitrary enumeration of the domain. -/
def gpuEvalCheck (evalPoint : Nat → Nat) (order : List Nat) (buf : List Nat) :
    List Nat :=
  writeAll evalPoint order buf

/-- Embedding of CudaCircuitHal::new (source lines 46 to 51): every
construction loads the fatbin module and stores it in the new
instance. -/
def cudaCircuitHalNew : List Effect × Bool := ([Effect.moduleLoad], true)

/-- The module-load events performed by constructing n backend
instances, one construction after another. -/
def loadsForInstances : Nat → List Effect
  | 0 => []
  | n + 1 => loadsForInstances n ++ cudaCircuitHalNew.1

/-- The two hash suites the adapter can be typed with. -/
inductive HashSuite where
  | sha256
  | poseidon2
  deriving DecidableEq

structure CudaHalModel where
  hashSuite : HashSuite
  deriving DecidableEq

structure CudaCircuitHalModel where
  hal : CudaHalModel
  deriving DecidableEq

structure SegmentProverModel where
  hal : CudaHalModel
  circuitHal : CudaCircuitHalModel
  deriving DecidableEq

/-- CudaHalSha256::new of the generic HAL: a CUDA HAL fixed to the
SHA-256 hash suite. -/
def cudaHalSha256New : CudaHalModel := ⟨.sha256⟩

/-- CudaCircuitHalSha256::new: the circuit HAL over a given generic
HAL, retaining it (source lines 127 and 132). -/
def cudaCircuitHalSha256New (hal : CudaHalModel) : CudaCircuitHalModel :=
  ⟨hal⟩

/-- Embedding of get_segment_prover (source lines 130 to 134): it takes
no arguments and wires a SHA-256 generic HAL to a SHA-256 circuit
HAL. -/
def get_segment_prover : SegmentProverModel :=
  let hal := cudaHalSha256New
  let circuit_hal := cudaCircuitHalSha256New hal
  ⟨hal, circuit_hal⟩

/-- The four upload effects a successful run performs before creating
the stream, in the order of the source (lines 88 to 103). -/
def uploadsTrace (schedule : List Nat) (c : ExtElem) (po2 steps : Nat) :
    List Effect :=
  [Effect.copyFromElem .rouTag [rouFwd (po2 + EXP_PO2)],
   Effect.copyFromU32 .po2Tag [po2 % 2 ^ 32],
   Effect.copyFromU32 .sizeTag [steps * INV_RATE % 2 ^ 32],
   Effect.copyGlobal .polyMixTag (extToU32s (mapPow c schedule))]

/-- The positional kernel arguments of the dispatch, in the order of
the source (lines 110 to 120). -/
def launchArgs (check ctrl data accum mix out : CudaBuffer)
    (po2 steps : Nat) : List KernelArg :=
  [KernelArg.ptr check.id, KernelArg.ptr ctrl.id, KernelArg.ptr data.id,
   KernelArg.ptr accum.id, KernelArg.ptr mix.id, KernelArg.ptr out.id,
   KernelArg.scalarPtr .rouTag [rouFwd (po2 + EXP_PO2)],
   KernelArg.scalarPtr .po2Tag [po2 % 2 ^ 32],
   KernelArg.scalarPtr .sizeTag [steps * INV_RATE % 2 ^ 32]]

/-- The single kernel dispatch of a run. -/
def launchEffect (check ctrl data accum mix out : CudaBuffer)
    (po2 steps : Nat) : Effect :=
  Effect.launch .evalCheckEntry (computeSimpleParams (steps * INV_RATE)).1
    (computeSimpleParams (steps * INV_RATE)).2
    (launchArgs check ctrl data accum mix out po2 steps)

/-- A substrate on which every operation succeeds. -/
def subOK : Substrate := ⟨.ok (), .ok (), .ok ()⟩

lemma P_pos : 0 < P := by decide

lemma emul_reduced (a b : ExtElem) : (emul a b).reduced :=
  ⟨Nat.mod_lt _ P_pos, Nat.mod_lt _ P_pos, Nat.mod_lt _ P_pos,
   Nat.mod_lt _ P_pos⟩

lemma emul_eone (a : ExtElem) (h : a.reduced) : emul a eone = a := by
  obtain ⟨a0, a1, a2, a3⟩ := a
  obtain ⟨h0, h1, h2, h3⟩ := h
  simp only [emul, eone, Nat.mul_one, Nat.mul_zero, Nat.add_zero,
    Nat.zero_add, ExtElem.mk.injEq]
  exact ⟨Nat.mod_eq_of_lt h0, Nat.mod_eq_of_lt h1, Nat.mod_eq_of_lt h2,
    Nat.mod_eq_of_lt h3⟩

lemma epow_zero (x : ExtElem) : epow x 0 = eone := rfl

lemma epow_one (x : ExtElem) (h : x.reduced) : epow x 1 = x := by
  show epowAux 1 x 1 = x
  simp [epowAux, emul_eone x h]

lemma epow_two (x : ExtElem) : epow x 2 = emul x x := by
  show epowAux 2 x 2 = emul x x
  simp [epowAux, emul_eone _ (emul_reduced x x)]

lemma writeAll_cons (f : Nat → Nat) (i : Nat) (t : List Nat)
    (buf : List Nat) :
    writeAll f (i :: t) buf = writeAll f t (buf.set i (f i)) := rfl

lemma length_writeAll (f : Nat → Nat) (order : List Nat)
    (buf : List Nat) : (writeAll f order buf).length = buf.length := by
  induction order generalizing buf with
  | nil => rfl
  | cons i t ih => rw [writeAll_cons, ih, List.length_set]

lemma getElem?_writeAll_not_mem (f : Nat → Nat) (order : List Nat)
    (buf : List Nat) (j : Nat) (hj : j ∉ order) :
    (writeAll f order buf)[j]? = buf[j]? := by
  induction order generalizing buf with
  | nil => rfl
  | cons i t ih =>
    rw [writeAll_cons, ih _ (fun h => hj (List.mem_cons_of_mem _ h)),
      List.getElem?_set_ne (fun h => hj (by rw [← h]; exact List.mem_cons_self i t))]

lemma getElem?_writeAll_mem (f : Nat → Nat) (order : List Nat)
    (buf : List Nat) (j : Nat) (hj : j ∈ order) (hlt : j < buf.length) :
    (writeAll f order buf)[j]? = some (f j) := by
  induction order generalizing buf with
  | nil => cases hj
  | cons i t ih =>
    rw [writeAll_cons]
    by_cases hjt : j ∈ t
    · exact ih _ hjt (by rw [List.length_set]; exact hlt)
    · have hji : j = i := by
        rcases List.mem_cons.mp hj with h | h
        · exact h
        · exact absurd h hjt
      subst hji
      rw [getElem?_writeAll_not_mem f t _ j hjt,
        List.getElem?_set_eq_of_lt _ hlt]

lemma eval_check_ok (sub : Substrate) (schedule : List Nat)
    (check ctrl data accum mix out : CudaBuffer) (gs hs : List CudaBuffer)
    (c : ExtElem) (po2 steps : Nat)
    (hk : po2 + EXP_PO2 ≤ maxRouPo2)
    (h1 : sub.createQueue = .ok ()) (h2 : sub.dispatch = .ok ())
    (h3 : sub.sync = .ok ()) :
    eval_check sub schedule check (ctrl :: data :: accum :: gs)
        (mix :: out :: hs) c po2 steps =
      (uploadsTrace schedule c po2 steps ++
        [Effect.streamCreate,
         launchEffect check ctrl data accum mix out po2 steps,
         Effect.synchronize], .ok ()) := by
  simp [eval_check, REGISTER_GROUP_CTRL, REGISTER_GROUP_DATA,
    REGISTER_GROUP_ACCUM, GLOBAL_MIX, GLOBAL_OUT, rootOfUnity, hk, h1, h2, h3,
    uploadsTrace, launchEffect, launchArgs]

lemma eval_check_queue_fail (sub : Substrate) (schedule : List Nat)
    (check ctrl data accum mix out : CudaBuffer) (gs hs : List CudaBuffer)
    (c : ExtElem) (po2 steps : Nat) (d : Nat)
    (hk : po2 + EXP_PO2 ≤ maxRouPo2)
    (h1 : sub.createQueue = .error d) :
    eval_check sub schedule check (ctrl :: data :: accum :: gs)
        (mix :: out :: hs) c po2 steps =
      (uploadsTrace schedule c po2 steps ++ [Effect.streamCreate],
       .error (.dispatchFailure d)) := by
  simp [eval_check, REGISTER_GROUP_CTRL, REGISTER_GROUP_DATA,
    REGISTER_GROUP_ACCUM, GLOBAL_MIX, GLOBAL_OUT, rootOfUnity, hk, h1,
    uploadsTrace]

lemma eval_check_dispatch_fail (sub : Substrate) (schedule : List Nat)
    (check ctrl data accum mix out : CudaBuffer) (gs hs : List CudaBuffer)
    (c : ExtElem) (po2 steps : Nat) (d : Nat)
    (hk : po2 + EXP_PO2 ≤ maxRouPo2)
    (h1 : sub.createQueue = .ok ()) (h2 : sub.dispatch = .error d) :
    eval_check sub schedule check (ctrl :: data :: accum :: gs)
        (mix :: out :: hs) c po2 steps =
      (uploadsTrace schedule c po2 steps ++
        [Effect.streamCreate,
         launchEffect check ctrl data accum mix out po2 steps],
       .error (.dispatchFailure d)) := by
  simp [eval_check, REGISTER_GROUP_CTRL, REGISTER_GROUP_DATA,
    REGISTER_GROUP_ACCUM, GLOBAL_MIX, GLOBAL_OUT, rootOfUnity, hk, h1, h2,
    uploadsTrace, launchEffect, launchArgs]

lemma eval_check_sync_fail (sub : Substrate) (schedule : List Nat)
    (check ctrl data accum mix out : CudaBuffer) (gs hs : List CudaBuffer)
    (c : ExtElem) (po2 steps : Nat) (d : Nat)
    (hk : po2 + EXP_PO2 ≤ maxRouPo2)
    (h1 : sub.createQueue = .ok ()) (h2 : sub.dispatch = .ok ())
    (h3 : sub.sync = .error d) :
    eval_check sub schedule check (ctrl :: data :: accum :: gs)
        (mix :: out :: hs) c po2 steps =
      (uploadsTrace schedule c po2 steps ++
        [Effect.streamCreate,
         launchEffect check ctrl data accum mix out po2 steps,
         Effect.synchronize],
       .error (.dispatchFailure d)) := by
  simp [eval_check, REGISTER_GROUP_CTRL, REGISTER_GROUP_DATA,
    REGISTER_GROUP_ACCUM, GLOBAL_MIX, GLOBAL_OUT, rootOfUnity, hk, h1, h2, h3,
    uploadsTrace, launchEffect, launchArgs]

/-- C2: for every per-point evaluation function, domain size, initial
check buffer and device completion order that covers the domain, the
accelerated backend and the sequential reference backend produce
bit-identical check buffers. -/
theorem gpu_cpu_eval_check_agree (evalPoint : Nat → Nat) (domain : Nat)
    (order : List Nat) (buf : List Nat)
    (hperm : order.Perm (List.range domain)) :
    gpuEvalCheck evalPoint order buf = cpuEvalCheck evalPoint domain buf := by
  apply List.ext_getElem?
  intro j
  by_cases hmem : j ∈ order
  · have hmem2 : j ∈ List.range domain := hperm.mem_iff.mp hmem
    by_cases hlt : j < buf.length
    · simp only [gpuEvalCheck, cpuEvalCheck]
      rw [getElem?_writeAll_mem _ _ _ _ hmem hlt,
        getElem?_writeAll_mem _ _ _ _ hmem2 hlt]
    · simp only [gpuEvalCheck, cpuEvalCheck]
      rw [List.getElem?_eq_none (by rw [length_writeAll]; omega),
        List.getElem?_eq_none (by rw [length_writeAll]; omega)]
  · have hmem2 : j ∉ List.range domain := fun h => hmem (hperm.mem_iff.mpr h)
    simp only [gpuEvalCheck, cpuEvalCheck]
    rw [getElem?_writeAll_not_mem _ _ _ _ hmem,
      getElem?_writeAll_not_mem _ _ _ _ hmem2]

theorem gpu_cpu_eval_check_agree_witness :
    gpuEvalCheck (fun i => (i * i + 1) % P) [2, 0, 3, 1] [7, 7, 7, 7] =
      cpuEvalCheck (fun i => (i * i + 1) % P) 4 [7, 7, 7, 7] :=
  gpu_cpu_eval_check_agree (fun i => (i * i + 1) % P) 4 [2, 0, 3, 1]
    [7, 7, 7, 7] (by decide)

/-- C3: every run computes the evaluation domain as steps times the
fixed inverse-rate constant and the root of unity as the forward-table
entry at exponent po2 plus log2 of the inverse rate: the size upload
carries steps * INV_RATE and the rou upload carries
rouFwd (po2 + log2Ceil INV_RATE). -/
theorem eval_check_domain_rou (sub : Substrate) (schedule : List Nat)
    (check ctrl data accum mix out : CudaBuffer) (gs hs : List CudaBuffer)
    (c : ExtElem) (po2 steps : Nat)
    (hk : po2 + EXP_PO2 ≤ maxRouPo2)
    (h1 : sub.createQueue = .ok ()) (h2 : sub.dispatch = .ok ())
    (h3 : sub.sync = .ok ()) (hsteps : steps * INV_RATE < 2 ^ 32) :
    Effect.copyFromU32 .sizeTag [steps * INV_RATE] ∈
      (eval_check sub schedule check (ctrl :: data :: accum :: gs)
        (mix :: out :: hs) c po2 steps).1 ∧
    Effect.copyFromElem .rouTag [rouFwd (po2 + log2Ceil INV_RATE)] ∈
      (eval_check sub schedule check (ctrl :: data :: accum :: gs)
        (mix :: out :: hs) c po2 steps).1 := by
  rw [eval_check_ok sub schedule check ctrl data accum mix out gs hs c po2
    steps hk h1 h2 h3]
  constructor
  · have hmod : steps * INV_RATE % 2 ^ 32 = steps * INV_RATE :=
      Nat.mod_eq_of_lt hsteps
    simp only [uploadsTrace, hmod, List.cons_append, List.nil_append,
      List.mem_cons]
    exact Or.inr (Or.inr (Or.inl trivial))
  · simp only [uploadsTrace, List.cons_append, List.nil_append,
      List.mem_cons]
    exact Or.inl rfl

theorem eval_check_domain_rou_witness :
    Effect.copyFromU32 .sizeTag [16 * INV_RATE] ∈
      (eval_check subOK [0, 1, 2] ⟨0, []⟩ [⟨1, []⟩, ⟨2, []⟩, ⟨3, []⟩]
        [⟨4, []⟩, ⟨5, []⟩] eone 25 16).1 ∧
    Effect.copyFromElem .rouTag [rouFwd (25 + log2Ceil INV_RATE)] ∈
      (eval_check subOK [0, 1, 2] ⟨0, []⟩ [⟨1, []⟩, ⟨2, []⟩, ⟨3, []⟩]
        [⟨4, []⟩, ⟨5, []⟩] eone 25 16).1 :=
  eval_check_domain_rou subOK [0, 1, 2] ⟨0, []⟩ ⟨1, []⟩ ⟨2, []⟩ ⟨3, []⟩
    ⟨4, []⟩ ⟨5, []⟩ [] [] eone 25 16 (by decide) rfl rfl rfl (by decide)

/-- C4: the challenge-weight vector is the challenge raised to each
entry of the fixed schedule; it is uploaded to the device exactly once
per call, before the single kernel launch, so every domain-point
evaluation sees the same weights; for schedule [0, 1, 2] and a reduced
challenge c the derived powers are [1, c, c * c]. -/
theorem eval_check_mix_pows_once (sub : Substrate) (schedule : List Nat)
    (check ctrl data accum mix out : CudaBuffer) (gs hs : List CudaBuffer)
    (c : ExtElem) (po2 steps : Nat)
    (hk : po2 + EXP_PO2 ≤ maxRouPo2)
    (h1 : sub.createQueue = .ok ()) (h2 : sub.dispatch = .ok ())
    (h3 : sub.sync = .ok ()) (hc : c.reduced) :
    mapPow c [0, 1, 2] = [eone, c, emul c c] ∧
    (eval_check sub schedule check (ctrl :: data :: accum :: gs)
        (mix :: out :: hs) c po2 steps).1.count
      (Effect.copyGlobal .polyMixTag (extToU32s (mapPow c schedule))) = 1 ∧
    (∃ pre post,
      (eval_check sub schedule check (ctrl :: data :: accum :: gs)
          (mix :: out :: hs) c po2 steps).1 =
        pre ++
          Effect.copyGlobal .polyMixTag (extToU32s (mapPow c schedule)) ::
            post ∧
      launches post =
        launches (eval_check sub schedule check (ctrl :: data :: accum :: gs)
          (mix :: out :: hs) c po2 steps).1 ∧
      (launches post).length = 1) := by
  refine ⟨by simp [mapPow, epow_zero, epow_one c hc, epow_two c], ?_, ?_⟩
  · rw [eval_check_ok sub schedule check ctrl data accum mix out gs hs c po2
      steps hk h1 h2 h3]
    simp [uploadsTrace, launchEffect, launchArgs, List.count_append,
      List.count_cons]
  · rw [eval_check_ok sub schedule check ctrl data accum mix out gs hs c po2
      steps hk h1 h2 h3]
    exact ⟨[Effect.copyFromElem .rouTag [rouFwd (po2 + EXP_PO2)],
            Effect.copyFromU32 .po2Tag [po2 % 2 ^ 32],
            Effect.copyFromU32 .sizeTag [steps * INV_RATE % 2 ^ 32]],
           [Effect.streamCreate,
            launchEffect check ctrl data accum mix out po2 steps,
            Effect.synchronize],
           by simp [uploadsTrace],
           by simp [launches, isLaunch, uploadsTrace, launchEffect],
           by simp [launches, isLaunch, launchEffect]⟩

theorem eval_check_mix_pows_once_witness :
    mapPow ⟨3, 1, 4, 1⟩ [0, 1, 2] =
      [eone, ⟨3, 1, 4, 1⟩, emul ⟨3, 1, 4, 1⟩ ⟨3, 1, 4, 1⟩] ∧
    (eval_check subOK [0, 1, 2] ⟨0, []⟩ [⟨1, []⟩, ⟨2, []⟩, ⟨3, []⟩]
        [⟨4, []⟩, ⟨5, []⟩] ⟨3, 1, 4, 1⟩ 25 16).1.count
      (Effect.copyGlobal .polyMixTag
        (extToU32s (mapPow ⟨3, 1, 4, 1⟩ [0, 1, 2]))) = 1 ∧
    (∃ pre post,
      (eval_check subOK [0, 1, 2] ⟨0, []⟩ [⟨1, []⟩, ⟨2, []⟩, ⟨3, []⟩]
          [⟨4, []⟩, ⟨5, []⟩] ⟨3, 1, 4, 1⟩ 25 16).1 =
        pre ++
          Effect.copyGlobal .polyMixTag
              (extToU32s (mapPow ⟨3, 1, 4, 1⟩ [0, 1, 2])) ::
            post ∧
      launches post =
        launches (eval_check subOK [0, 1, 2] ⟨0, []⟩
          [⟨1, []⟩, ⟨2, []⟩, ⟨3, []⟩] [⟨4, []⟩, ⟨5, []⟩]
          ⟨3, 1, 4, 1⟩ 25 16).1 ∧
      (launches post).length = 1) :=
  eval_check_mix_pows_once subOK [0, 1, 2] ⟨0, []⟩ ⟨1, []⟩ ⟨2, []⟩ ⟨3, []⟩
    ⟨4, []⟩ ⟨5, []⟩ [] [] ⟨3, 1, 4, 1⟩ 25 16 (by decide) rfl rfl rfl
    (by decide)

/-- C5: a successful run submits the kernel and then synchronizes the
stream as its final action before returning: its trace ends with the
launch immediately followed by the synchronize, and the outcome is ok
only after that wait, so the call is synchronous for the caller. -/
theorem eval_check_synchronous (sub : Substrate) (schedule : List Nat)
    (check ctrl data accum mix out : CudaBuffer) (gs hs : List CudaBuffer)
    (c : ExtElem) (po2 steps : Nat)
    (hk : po2 + EXP_PO2 ≤ maxRouPo2)
    (h1 : sub.createQueue = .ok ()) (h2 : sub.dispatch = .ok ())
    (h3 : sub.sync = .ok ()) :
    ∃ pre grid blk args,
      (eval_check sub schedule check (ctrl :: data :: accum :: gs)
          (mix :: out :: hs) c po2 steps).1 =
        pre ++ [Effect.launch .evalCheckEntry grid blk args,
                Effect.synchronize] ∧
      (eval_check sub schedule check (ctrl :: data :: accum :: gs)
          (mix :: out :: hs) c po2 steps).2 = .ok () := by
  rw [eval_check_ok sub schedule check ctrl data accum mix out gs hs c po2
    steps hk h1 h2 h3]
  refine ⟨uploadsTrace schedule c po2 steps ++ [Effect.streamCreate],
    (computeSimpleParams (steps * INV_RATE)).1,
    (computeSimpleParams (steps * INV_RATE)).2,
    launchArgs check ctrl data accum mix out po2 steps, ?_, rfl⟩
  simp [launchEffect, uploadsTrace]

theorem eval_check_synchronous_witness :
    ∃ pre grid blk args,
      (eval_check subOK [0, 1, 2] ⟨0, []⟩ [⟨1, []⟩, ⟨2, []⟩, ⟨3, []⟩]
          [⟨4, []⟩, ⟨5, []⟩] eone 25 16).1 =
        pre ++ [Effect.launch .evalCheckEntry grid blk args,
                Effect.synchronize] ∧
      (eval_check subOK [0, 1, 2] ⟨0, []⟩ [⟨1, []⟩, ⟨2, []⟩, ⟨3, []⟩]
          [⟨4, []⟩, ⟨5, []⟩] eone 25 16).2 = .ok () :=
  eval_check_synchronous subOK [0, 1, 2] ⟨0, []⟩ ⟨1, []⟩ ⟨2, []⟩ ⟨3, []⟩
    ⟨4, []⟩ ⟨5, []⟩ [] [] eone 25 16 (by decide) rfl rfl rfl

/-- C6: a root-of-unity exponent inside the built table range
succeeds, the top entry included, and one past the range fails with
DomainTooLarge; eval_check surfaces that failure to the caller before
performing any effect, while a po2 at the top of the supported range
(the shift by log2 of the inverse rate included) succeeds. -/
theorem eval_check_rou_boundary (sub : Substrate) (schedule : List Nat)
    (check ctrl data accum mix out : CudaBuffer) (gs hs : List CudaBuffer)
    (c : ExtElem) (po2 steps : Nat)
    (h1 : sub.createQueue = .ok ()) (h2 : sub.dispatch = .ok ())
    (h3 : sub.sync = .ok ()) :
    rootOfUnity maxRouPo2 = .ok (rouFwd maxRouPo2) ∧
    rootOfUnity (maxRouPo2 + 1) = .error .domainTooLarge ∧
    (maxRouPo2 < po2 + EXP_PO2 →
      eval_check sub schedule check (ctrl :: data :: accum :: gs)
          (mix :: out :: hs) c po2 steps = ([], .error .domainTooLarge)) ∧
    (po2 + EXP_PO2 ≤ maxRouPo2 →
      (eval_check sub schedule check (ctrl :: data :: accum :: gs)
          (mix :: out :: hs) c po2 steps).2 = .ok ()) := by
  refine ⟨by simp [rootOfUnity], by simp [rootOfUnity, maxRouPo2], ?_, ?_⟩
  · intro h
    have hlt : ¬ (po2 + EXP_PO2 ≤ maxRouPo2) := by omega
    simp [eval_check, REGISTER_GROUP_CTRL, REGISTER_GROUP_DATA,
      REGISTER_GROUP_ACCUM, GLOBAL_MIX, GLOBAL_OUT, rootOfUnity, hlt]
  · intro h
    rw [eval_check_ok sub schedule check ctrl data accum mix out gs hs c po2
      steps h h1 h2 h3]

theorem eval_check_rou_boundary_witness :
    eval_check subOK [0, 1, 2] ⟨0, []⟩ [⟨1, []⟩, ⟨2, []⟩, ⟨3, []⟩]
        [⟨4, []⟩, ⟨5, []⟩] eone 26 16 = ([], .error .domainTooLarge) ∧
    (eval_check subOK [0, 1, 2] ⟨0, []⟩ [⟨1, []⟩, ⟨2, []⟩, ⟨3, []⟩]
        [⟨4, []⟩, ⟨5, []⟩] eone 25 16).2 = .ok () :=
  ⟨(eval_check_rou_boundary subOK [0, 1, 2] ⟨0, []⟩ ⟨1, []⟩ ⟨2, []⟩ ⟨3, []⟩
      ⟨4, []⟩ ⟨5, []⟩ [] [] eone 26 16 rfl rfl rfl).2.2.1 (by decide),
   (eval_check_rou_boundary subOK [0, 1, 2] ⟨0, []⟩ ⟨1, []⟩ ⟨2, []⟩ ⟨3, []⟩
      ⟨4, []⟩ ⟨5, []⟩ [] [] eone 25 16 rfl rfl rfl).2.2.2 (by decide)⟩

/-- C7: when the substrate cannot create the stream, launch the
kernel, or synchronize it, the call fails with DispatchFailure carrying
the underlying substrate diagnostic, and the failed operation was
attempted exactly once, never retried. -/
theorem eval_check_dispatch_failure (sub : Substrate) (schedule : List Nat)
    (check ctrl data accum mix out : CudaBuffer) (gs hs : List CudaBuffer)
    (c : ExtElem) (po2 steps : Nat) (d : Nat)
    (hk : po2 + EXP_PO2 ≤ maxRouPo2) :
    (sub.createQueue = .error d →
      (eval_check sub schedule check (ctrl :: data :: accum :: gs)
          (mix :: out :: hs) c po2 steps).2 = .error (.dispatchFailure d) ∧
      (eval_check sub schedule check (ctrl :: data :: accum :: gs)
          (mix :: out :: hs) c po2 steps).1.count Effect.streamCreate = 1 ∧
      launches (eval_check sub schedule check (ctrl :: data :: accum :: gs)
          (mix :: out :: hs) c po2 steps).1 = [] ∧
      (eval_check sub schedule check (ctrl :: data :: accum :: gs)
          (mix :: out :: hs) c po2 steps).1.count Effect.synchronize = 0) ∧
    (sub.createQueue = .ok () → sub.dispatch = .error d →
      (eval_check sub schedule check (ctrl :: data :: accum :: gs)
          (mix :: out :: hs) c po2 steps).2 = .error (.dispatchFailure d) ∧
      (launches (eval_check sub schedule check (ctrl :: data :: accum :: gs)
          (mix :: out :: hs) c po2 steps).1).length = 1 ∧
      (eval_check sub schedule check (ctrl :: data :: accum :: gs)
          (mix :: out :: hs) c po2 steps).1.count Effect.synchronize = 0) ∧
    (sub.createQueue = .ok () → sub.dispatch = .ok () → sub.sync = .error d →
      (eval_check sub schedule check (ctrl :: data :: accum :: gs)
          (mix :: out :: hs) c po2 steps).2 = .error (.dispatchFailure d) ∧
      (launches (eval_check sub schedule check (ctrl :: data :: accum :: gs)
          (mix :: out :: hs) c po2 steps).1).length = 1 ∧
      (eval_check sub schedule check (ctrl :: data :: accum :: gs)
          (mix :: out :: hs) c po2 steps).1.count Effect.synchronize = 1) := by
  refine ⟨?_, ?_, ?_⟩
  · intro h
    rw [eval_check_queue_fail sub schedule check ctrl data accum mix out gs hs
      c po2 steps d hk h]
    refine ⟨rfl, ?_, ?_, ?_⟩ <;>
      simp [uploadsTrace, launches, isLaunch, List.count_append,
        List.count_cons, List.count_nil]
  · intro h h2
    rw [eval_check_dispatch_fail sub schedule check ctrl data accum mix out gs
      hs c po2 steps d hk h h2]
    refine ⟨rfl, ?_, ?_⟩ <;>
      simp [uploadsTrace, launchEffect, launchArgs, launches, isLaunch,
        List.count_append, List.count_cons, List.count_nil]
  · intro h h2 h3
    rw [eval_check_sync_fail sub schedule check ctrl data accum mix out gs hs
      c po2 steps d hk h h2 h3]
    refine ⟨rfl, ?_, ?_⟩ <;>
      simp [uploadsTrace, launchEffect, launchArgs, launches, isLaunch,
        List.count_append, List.count_cons, List.count_nil]

theorem eval_check_dispatch_failure_witness :
    (eval_check ⟨.error 42, .ok (), .ok ()⟩ [0, 1, 2] ⟨0, []⟩
        [⟨1, []⟩, ⟨2, []⟩, ⟨3, []⟩] [⟨4, []⟩, ⟨5, []⟩] eone 25 16).2 =
      .error (.dispatchFailure 42) ∧
    (eval_check ⟨.error 42, .ok (), .ok ()⟩ [0, 1, 2] ⟨0, []⟩
        [⟨1, []⟩, ⟨2, []⟩, ⟨3, []⟩] [⟨4, []⟩, ⟨5, []⟩] eone 25 16).1.count
      Effect.streamCreate = 1 ∧
    launches (eval_check ⟨.error 42, .ok (), .ok ()⟩ [0, 1, 2] ⟨0, []⟩
        [⟨1, []⟩, ⟨2, []⟩, ⟨3, []⟩] [⟨4, []⟩, ⟨5, []⟩] eone 25 16).1 = [] ∧
    (eval_check ⟨.error 42, .ok (), .ok ()⟩ [0, 1, 2] ⟨0, []⟩
        [⟨1, []⟩, ⟨2, []⟩, ⟨3, []⟩] [⟨4, []⟩, ⟨5, []⟩] eone 25 16).1.count
      Effect.synchronize = 0 :=
  (eval_check_dispatch_failure ⟨.error 42, .ok (), .ok ()⟩ [0, 1, 2] ⟨0, []⟩
    ⟨1, []⟩ ⟨2, []⟩ ⟨3, []⟩ ⟨4, []⟩ ⟨5, []⟩ [] [] eone 25 16 42
    (by decide)).1 rfl

/-- C8: the single kernel dispatch of a successful run passes its
arguments in the fixed ABI order: the six buffer pointers check, ctrl,
data, accum, mix, out, followed by the three scalar uploads root of
unity, po2, domain size. -/
theorem eval_check_abi_order (sub : Substrate) (schedule : List Nat)
    (check ctrl data accum mix out : CudaBuffer) (gs hs : List CudaBuffer)
    (c : ExtElem) (po2 steps : Nat)
    (hk : po2 + EXP_PO2 ≤ maxRouPo2)
    (h1 : sub.createQueue = .ok ()) (h2 : sub.dispatch = .ok ())
    (h3 : sub.sync = .ok ()) :
    launches (eval_check sub schedule check (ctrl :: data :: accum :: gs)
        (mix :: out :: hs) c po2 steps).1 =
      [Effect.launch .evalCheckEntry
        (computeSimpleParams (steps * INV_RATE)).1
        (computeSimpleParams (steps * INV_RATE)).2
        [KernelArg.ptr check.id, KernelArg.ptr ctrl.id,
         KernelArg.ptr data.id, KernelArg.ptr accum.id,
         KernelArg.ptr mix.id, KernelArg.ptr out.id,
         KernelArg.scalarPtr .rouTag [rouFwd (po2 + EXP_PO2)],
         KernelArg.scalarPtr .po2Tag [po2 % 2 ^ 32],
         KernelArg.scalarPtr .sizeTag [steps * INV_RATE % 2 ^ 32]]] := by
  rw [eval_check_ok sub schedule check ctrl data accum mix out gs hs c po2
    steps hk h1 h2 h3]
  simp [launches, isLaunch, uploadsTrace, launchEffect, launchArgs]

theorem eval_check_abi_order_witness :
    launches (eval_check subOK [0, 1, 2] ⟨0, []⟩
        [⟨1, []⟩, ⟨2, []⟩, ⟨3, []⟩] [⟨4, []⟩, ⟨5, []⟩] eone 25 16).1 =
      [Effect.launch .evalCheckEntry (computeSimpleParams (16 * INV_RATE)).1
        (computeSimpleParams (16 * INV_RATE)).2
        [KernelArg.ptr 0, KernelArg.ptr 1, KernelArg.ptr 2, KernelArg.ptr 3,
         KernelArg.ptr 4, KernelArg.ptr 5,
         KernelArg.scalarPtr .rouTag [rouFwd (25 + EXP_PO2)],
         KernelArg.scalarPtr .po2Tag [25 % 2 ^ 32],
         KernelArg.scalarPtr .sizeTag [16 * INV_RATE % 2 ^ 32]]] :=
  eval_check_abi_order subOK [0, 1, 2] ⟨0, []⟩ ⟨1, []⟩ ⟨2, []⟩ ⟨3, []⟩
    ⟨4, []⟩ ⟨5, []⟩ [] [] eone 25 16 (by decide) rfl rfl rfl

/-- C9 counterexample: constructing two backend instances performs two
module loads; the load is repeated per backend instance, not cached
once for the process lifetime. -/
theorem module_load_per_instance_cex :
    loadsForInstances 2 = [Effect.moduleLoad, Effect.moduleLoad] ∧
    loadsForInstances 2 ≠ [Effect.moduleLoad] :=
  ⟨rfl, by decide⟩

/-- C9 (amended): the precompiled program is loaded exactly once per
backend instance, at construction time: constructing n instances
performs n loads, and eval_check itself never loads the module. -/
theorem module_load_per_instance (n : Nat) (sub : Substrate)
    (schedule : List Nat) (check ctrl data accum mix out : CudaBuffer)
    (gs hs : List CudaBuffer) (c : ExtElem) (po2 steps : Nat)
    (hk : po2 + EXP_PO2 ≤ maxRouPo2)
    (h1 : sub.createQueue = .ok ()) (h2 : sub.dispatch = .ok ())
    (h3 : sub.sync = .ok ()) :
    (loadsForInstances n).length = n ∧
    Effect.moduleLoad ∉
      (eval_check sub schedule check (ctrl :: data :: accum :: gs)
        (mix :: out :: hs) c po2 steps).1 := by
  constructor
  · induction n with
    | zero => rfl
    | succ k ih => simp [loadsForInstances, cudaCircuitHalNew, ih]
  · rw [eval_check_ok sub schedule check ctrl data accum mix out gs hs c po2
      steps hk h1 h2 h3]
    simp [uploadsTrace, launchEffect, launchArgs]

theorem module_load_per_instance_witness :
    (loadsForInstances 2).length = 2 ∧
    Effect.moduleLoad ∉
      (eval_check subOK [0, 1, 2] ⟨0, []⟩ [⟨1, []⟩, ⟨2, []⟩, ⟨3, []⟩]
        [⟨4, []⟩, ⟨5, []⟩] eone 25 16).1 :=
  module_load_per_instance 2 subOK [0, 1, 2] ⟨0, []⟩ ⟨1, []⟩ ⟨2, []⟩ ⟨3, []⟩
    ⟨4, []⟩ ⟨5, []⟩ [] [] eone 25 16 (by decide) rfl rfl rfl

/-- C10: get_segment_prover takes no arguments and always wires the
SHA-256 generic HAL to the SHA-256 circuit HAL; no other hash suite can
be selected through this entry point. -/
theorem get_segment_prover_sha256 :
    get_segment_prover.hal.hashSuite = HashSuite.sha256 ∧
    get_segment_prover.circuitHal.hal.hashSuite = HashSuite.sha256 :=
  ⟨rfl, rfl⟩

/-- C1 counterexample: a call whose three group buffers have pairwise
mismatched sizes (5, 7 and 9, none equal to steps = 16, and steps is
not 2 ^ po2 either) succeeds instead of failing with InvalidLayout:
eval_check validates neither buffer sizes nor the steps relation. -/
theorem eval_check_size_mismatch_accepted :
    (eval_check subOK [0, 1, 2] ⟨0, List.replicate 64 0⟩
        [⟨1, List.replicate 5 0⟩, ⟨2, List.replicate 7 0⟩,
         ⟨3, List.replicate 9 0⟩]
        [⟨4, List.replicate 1 0⟩, ⟨5, List.replicate 2 0⟩]
        eone 25 16).2 = .ok () := by
  rw [eval_check_ok subOK [0, 1, 2] ⟨0, List.replicate 64 0⟩
    ⟨1, List.replicate 5 0⟩ ⟨2, List.replicate 7 0⟩ ⟨3, List.replicate 9 0⟩
    ⟨4, List.replicate 1 0⟩ ⟨5, List.replicate 2 0⟩ [] [] eone 25 16
    (by decide) rfl rfl rfl]

/-- C1 (amended): the only layout condition eval_check enforces is
that the groups sequence has at least its three indexed entries and the
globals sequence at least its two: a shorter sequence aborts the call
with InvalidLayout (the out-of-range indexing panic) before any effect
is performed; buffer sizes are never compared against each other, steps
or 2 ^ po2. -/
theorem eval_check_short_layout_rejected (sub : Substrate)
    (schedule : List Nat) (check : CudaBuffer)
    (groups globals : List CudaBuffer) (c : ExtElem) (po2 steps : Nat)
    (h : groups.length < 3 ∨ globals.length < 2) :
    eval_check sub schedule check groups globals c po2 steps =
      ([], .error .invalidLayout) := by
  cases hg0 : groups[REGISTER_GROUP_CTRL]? with
  | none => simp [eval_check, hg0]
  | some g0 =>
    cases hg1 : groups[REGISTER_GROUP_DATA]? with
    | none => simp [eval_check, hg0, hg1]
    | some g1 =>
      cases hg2 : groups[REGISTER_GROUP_ACCUM]? with
      | none => simp [eval_check, hg0, hg1, hg2]
      | some g2 =>
        have hglen : REGISTER_GROUP_ACCUM < groups.length :=
          (List.getElem?_eq_some_iff.mp hg2).1
        rcases h with hg | hgl
        · exact absurd hglen (by simp only [REGISTER_GROUP_ACCUM]; omega)
        · cases hm : globals[GLOBAL_MIX]? with
          | none => simp [eval_check, hg0, hg1, hg2, hm]
          | some m =>
            cases ho : globals[GLOBAL_OUT]? with
            | none => simp [eval_check, hg0, hg1, hg2, hm, ho]
            | some o =>
              have hol : GLOBAL_OUT < globals.length :=
                (List.getElem?_eq_some_iff.mp ho).1
              exact absurd hol (by simp only [GLOBAL_OUT]; omega)

theorem eval_check_short_layout_rejected_witness :
    eval_check subOK [] ⟨0, []⟩ [] [] eone 0 0 =
      ([], .error .invalidLayout) :=
  eval_check_short_layout_rejected subOK [] ⟨0, []⟩ [] [] eone 0 0
    (Or.inl (by decide))
